import Mathlib

/-!
# Verification of the agent-reputation-dashboard scoring engine

Shallow embedding of the data layer of the repository
(`src/lib/data/onchain.ts`, `src/lib/data/types.ts`,
`src/lib/data/protocols.ts`, `src/lib/rpc.ts`) in Lean 4.

JavaScript `number` arithmetic is idealised as exact rational arithmetic
(`ℚ`).  The two transcendental `Math` primitives the code uses,
`Math.sin` and `Math.log1p`, are kept abstract as fields of a `JsMath`
structure: every theorem quantifies over the structure (adding, where a
claim needs them, the standard facts such as `log1p 0 = 0` as explicit
hypotheses), so each theorem covers in particular the real JavaScript
primitives.  JavaScript's `Date.now()` is modelled as an explicit `now`
parameter (in milliseconds) wherever the source reads the clock.
-/

namespace AgentRep

attribute [local semireducible] Rat.add Rat.mul Rat.inv Rat.sub Rat.ofScientific

/-! ## JS numeric primitives -/

/-- `Math.floor` on rationals, written through `num`/`den` (whose integer
division is Euclidean, hence floor for the positive denominators of `ℚ`)
so that concrete values reduce; `ratFloor_eq_floor` bridges to `⌊·⌋`. -/
def ratFloor (q : ℚ) : ℤ := q.num / q.den

/-- JavaScript `Math.round`: round half-up, i.e. `⌊x + 1/2⌋`, as a rational. -/
def jsRound (x : ℚ) : ℚ := ((ratFloor (x + 1/2) : ℤ) : ℚ)

/-- JavaScript `Math.max` on (non-NaN) numbers. -/
def jsMax (a b : ℚ) : ℚ := if a ≤ b then b else a

/-- JavaScript `Math.min` on (non-NaN) numbers. -/
def jsMin (a b : ℚ) : ℚ := if a ≤ b then a else b

/-- JavaScript `Math.abs` on integers. -/
def jsAbs (n : ℤ) : ℤ := if n < 0 then -n else n

/-- `clamp` from `onchain.ts`:
`Math.max(min, Math.min(max, Math.round(val)))`. -/
def clamp (val lo hi : ℚ) : ℚ := jsMax lo (jsMin hi (jsRound val))

/-- A rational that is (the image of) an integer — the meaning of
"integer-valued" for the JS numbers produced by `clamp`/`Math.round`. -/
def isInt (q : ℚ) : Prop := ∃ n : ℤ, q = (n : ℚ)

/-- The transcendental `Math` primitives used by the source, kept abstract. -/
structure JsMath where
  sin : ℚ → ℚ
  log1p : ℚ → ℚ

/-- `seeded` from `onchain.ts`:
`const x = Math.sin(seed * 9301 + 49297) * 233280; return x - Math.floor(x)`. -/
def seeded (M : JsMath) (seed : ℚ) : ℚ :=
  let x := M.sin (seed * 9301 + 49297) * 233280
  x - ((ratFloor x : ℤ) : ℚ)

/-- Wrap an integer to the signed 32-bit range, the effect of JavaScript's
`| 0` (and of `<< 5` on its result). -/
def toInt32 (n : ℤ) : ℤ := (n + 2 ^ 31) % 2 ^ 32 - 2 ^ 31

/-- One step of `hashString`'s loop:
`hash = ((hash << 5) - hash + char) | 0`.  `hash << 5` itself wraps to
32 bits before the subtraction and addition, which are exact in doubles. -/
def hashStep (h : ℤ) (c : ℕ) : ℤ := toInt32 (toInt32 (h * 32) - h + (c : ℤ))

/-- `hashString` from `onchain.ts`: fold `hashStep` over the UTF-16 code
units (for the ASCII ids in this repository, the characters' code points),
then `Math.abs`. -/
def hashString (s : String) : ℤ :=
  jsAbs (s.data.foldl (fun h c => hashStep h c.toNat) 0)

/-! ## Data model (`types.ts`, `protocols.ts`) -/

inductive ChainId
  | ethereum | base | solana | arbitrum | polygon
  | optimism | avalanche | bnbChain
deriving DecidableEq, Repr

inductive AgentSkill
  | defi | research | content | security | trading | analytics
  | governance | nft | bridge | oracle | mev | yield
  | lending | insurance | social
deriving DecidableEq, Repr

inductive AgentStatus
  | active | inactive | underReview
deriving DecidableEq, Repr

inductive TransactionType
  | swap | transfer | stake | bridge | governance | mint | lend | borrow
deriving DecidableEq, Repr

inductive TxStatus
  | success | pending | failed
deriving DecidableEq, Repr

structure Transaction where
  id : String
  type : TransactionType
  chain : ChainId
  amount : String
  token : String
  status : TxStatus
  timestamp : String
  txHash : String
  counterparty : Option String
deriving DecidableEq, Repr

/-- The provenance tag `source` attached to a `KnownAgent`
(`"hardcoded" | "user-submitted"`; `undefined` defaults to hardcoded). -/
inductive AgentSource
  | hardcoded | userSubmitted
deriving DecidableEq, Repr

/-- `KnownAgent` from `protocols.ts` (plus the `source` tag attached by the
registry code).  `walletAddress` is `Option String`: `none` stands for a
missing or empty address (both falsy under the source's `!!known.walletAddress`
test).  `createdAt`, an ISO date string in the source, is modelled by its
parsed epoch value `new Date(createdAt).getTime()` in milliseconds. -/
structure KnownAgent where
  id : String
  name : String
  description : String
  protocol : String
  walletAddress : Option String
  chains : List ChainId
  skills : List AgentSkill
  website : Option String
  twitter : Option String
  createdAtMs : ℚ
  source : AgentSource
deriving DecidableEq, Repr

inductive Trend
  | up | down | stable
deriving DecidableEq, Repr

structure ReputationScore where
  overall : ℚ
  reliability : ℚ
  accuracy : ℚ
  speed : ℚ
  trustworthiness : ℚ
  trend : Trend
  historyLast30Days : List ℚ
deriving DecidableEq, Repr

structure AgentStats where
  totalTransactions : ℚ
  successRate : ℚ
  totalValueProcessed : String
  avgResponseTime : String
  uptime : ℚ
  activeChains : ℚ
deriving DecidableEq, Repr

structure Review where
  id : String
  author : String
  authorAvatar : String
  rating : ℚ
  comment : String
  timestamp : String
  isVerified : Bool
deriving DecidableEq, Repr

structure Agent where
  id : String
  name : String
  description : String
  avatar : String
  status : AgentStatus
  chains : List ChainId
  skills : List AgentSkill
  reputation : ReputationScore
  stats : AgentStats
  transactions : List Transaction
  reviews : List Review
  createdAt : String
  lastActiveAt : String
  walletAddress : String
  website : Option String
  twitter : Option String
  source : AgentSource
deriving DecidableEq, Repr

/-! ## Protocol maturity table (`onchain.ts` lines 56-68) -/

def PROTOCOL_SCORES : List (String × ℚ) :=
  [("autonolas", 31), ("fetch-ai", 29), ("erc-8004", 29), ("virtuals", 28),
   ("morpheus", 26), ("openclaw", 25), ("spectral", 25), ("wayfinder", 24),
   ("ai-arena", 23)]

def DEFAULT_PROTOCOL_SCORE : ℚ := 21

def USER_SUBMITTED_SCORE : ℚ := 19

/-- `PROTOCOL_SCORES[agent.protocol] || DEFAULT_PROTOCOL_SCORE`
(all table values are nonzero, so `||` is exactly the default on a missed
lookup). -/
def protocolScoreLookup (p : String) : ℚ :=
  (PROTOCOL_SCORES.lookup p).getD DEFAULT_PROTOCOL_SCORE

/-- The protocol base used by both `generatePerformanceMetrics` and
`computeReputation` (`onchain.ts` lines 105-107 and 310-313):
user-submitted agents get `USER_SUBMITTED_SCORE` regardless of their
claimed protocol, others get the table value or the default. -/
def protocolBaseOf (a : KnownAgent) : ℚ :=
  if a.source = AgentSource.userSubmitted then USER_SUBMITTED_SCORE
  else protocolScoreLookup a.protocol

/-! ## Performance metric synthesiser (`onchain.ts` lines 71-141) -/

structure PerformanceMetrics where
  taskSuccessRate : ℚ
  robustnessScore : ℚ
  deliveryRate : ℚ
  normalizedLatency : ℚ
  efficiencyScore : ℚ
  safetyScore : ℚ
  transparencyScore : ℚ
  userFeedback : ℚ
  verifiableExecScore : ℚ
deriving DecidableEq, Repr

/-- The inner `metric` closure of `generatePerformanceMetrics`:
`Math.max(0, Math.min(100, Math.round(quality*(ceiling-floor)+floor+variation)))`
with `variation = seeded(h + seed) * 20 - 10`. -/
def metricGen (M : JsMath) (quality : ℚ) (h : ℤ) (seed floor ceiling : ℚ) : ℚ :=
  let variation := seeded M ((h : ℚ) + seed) * 20 - 10
  let raw := quality * (ceiling - floor) + floor + variation
  jsMax 0 (jsMin 100 (jsRound raw))

/-- `generatePerformanceMetrics` from `onchain.ts`.  `now` is the value of
`Date.now()` at the call. -/
def generatePerformanceMetrics (M : JsMath) (now : ℚ) (agent : KnownAgent)
    (totalTx balanceEth successRate : ℚ) (h : ℤ) : PerformanceMetrics :=
  let pqf := protocolBaseOf agent / 31
  let txFactor := jsMin 1 (M.log1p totalTx / 12)
  let balFactor := jsMin 1 (M.log1p balanceEth / 8)
  let ageMonths := (now - agent.createdAtMs) / (86400000 * 30)
  let ageFactor := jsMin 1 (ageMonths / 24)
  let quality := pqf * 0.3 + txFactor * 0.25 + balFactor * 0.15 +
    ageFactor * 0.2 + (successRate / 100) * 0.1
  { taskSuccessRate := metricGen M quality h 2001 30 98
    robustnessScore := metricGen M quality h 2002 25 95
    deliveryRate := metricGen M quality h 2003 35 98
    normalizedLatency :=
      jsMax 0.05 (jsMin 0.95 (1 - quality + (seeded M ((h : ℚ) + 2004) * 0.2 - 0.1)))
    efficiencyScore := metricGen M quality h 2005 20 95
    safetyScore := metricGen M quality h 2006 40 99
    transparencyScore := metricGen M quality h 2007 30 95
    userFeedback := metricGen M quality h 2008 25 96
    verifiableExecScore :=
      if agent.source = AgentSource.userSubmitted ∨ agent.walletAddress = none
      then 0 else metricGen M quality h 2009 10 90 }

/-! ## Reputation composer (`onchain.ts` lines 296-413)

Each intermediate `const` of `computeReputation` is factored into a named
definition with identical semantics, so individual terms can be reasoned
about; `computeReputation` assembles them. -/

/-- `Object.values(txCounts).reduce((sum, c) => sum + c, 0)`.
`txCounts` (a JS record keyed by chain) is modelled as an association list. -/
def totalTxOf (txCounts : List (ChainId × ℚ)) : ℚ := (txCounts.map Prod.snd).sum

/-- `balances.reduce((sum, b) => sum + b.balance, 0n)` (exact bigint sum). -/
def totalBalanceOf (balances : List (ChainId × ℤ)) : ℤ :=
  (balances.map Prod.snd).sum

/-- `Number(totalBalance) / 1e18`, idealised as the exact rational. -/
def balanceEthOf (balances : List (ChainId × ℤ)) : ℚ :=
  ((totalBalanceOf balances : ℤ) : ℚ) / 1000000000000000000

/-- `hasWallet = totalTx > 0 || balanceEth > 0`. -/
def hasWalletOf (txCounts : List (ChainId × ℚ)) (balances : List (ChainId × ℤ)) :
    Prop :=
  0 < totalTxOf txCounts ∨ 0 < balanceEthOf balances

instance (txCounts : List (ChainId × ℚ)) (balances : List (ChainId × ℤ)) :
    Decidable (hasWalletOf txCounts balances) := by
  unfold hasWalletOf; infer_instance

/-- `txActivity = hasWallet ? Math.min(15, Math.round(Math.log1p(totalTx) * 2)) : 0`. -/
def txActivityOf (M : JsMath) (txCounts : List (ChainId × ℚ))
    (balances : List (ChainId × ℤ)) : ℚ :=
  if hasWalletOf txCounts balances
  then jsMin 15 (jsRound (M.log1p (totalTxOf txCounts) * 2)) else 0

/-- `balanceBonus = hasWallet ? Math.min(10, Math.round(Math.log1p(balanceEth) * 3)) : 0`. -/
def balanceBonusOf (M : JsMath) (txCounts : List (ChainId × ℚ))
    (balances : List (ChainId × ℤ)) : ℚ :=
  if hasWalletOf txCounts balances
  then jsMin 10 (jsRound (M.log1p (balanceEthOf balances) * 3)) else 0

/-- `chainsActive = Object.values(txCounts).filter((c) => c > 0).length`. -/
def chainsActiveOf (txCounts : List (ChainId × ℚ)) : ℕ :=
  ((txCounts.map Prod.snd).filter (fun c => decide (0 < c))).length

/-- `multiChainAct = hasWallet ? Math.min(5, chainsActive * 2) : 0`. -/
def multiChainActOf (txCounts : List (ChainId × ℚ))
    (balances : List (ChainId × ℤ)) : ℚ :=
  if hasWalletOf txCounts balances
  then jsMin 5 ((chainsActiveOf txCounts : ℚ) * 2) else 0

/-- `onChainBonus = txActivity + balanceBonus + multiChainAct`. -/
def onChainBonusOf (M : JsMath) (txCounts : List (ChainId × ℚ))
    (balances : List (ChainId × ℤ)) : ℚ :=
  txActivityOf M txCounts balances + balanceBonusOf M txCounts balances +
    multiChainActOf txCounts balances

/-- `ageBonus = Math.min(20, Math.round(agentAgeMonths * 0.8))` with
`agentAgeMonths = (Date.now() - createdAt) / (86400000 * 30)`. -/
def ageBonusOf (now : ℚ) (agent : KnownAgent) : ℚ :=
  jsMin 20 (jsRound ((now - agent.createdAtMs) / (86400000 * 30) * 0.8))

/-- `multiChainBonus = Math.min(15, agent.chains.length * 4)`. -/
def multiChainBonusOf (agent : KnownAgent) : ℚ :=
  jsMin 15 ((agent.chains.length : ℚ) * 4)

/-- `skillBonus = Math.min(10, Math.round(agent.skills.length * 2.5))`. -/
def skillBonusOf (agent : KnownAgent) : ℚ :=
  jsMin 10 (jsRound ((agent.skills.length : ℚ) * 2.5))

/-- The sub-score noise terms `seeded(h + k) * 6 - 3` (±3). -/
def subRand (M : JsMath) (h : ℤ) (k : ℚ) : ℚ := seeded M ((h : ℚ) + k) * 6 - 3

def reliabilityOf (M : JsMath) (now : ℚ) (txCounts : List (ChainId × ℚ))
    (balances : List (ChainId × ℤ)) (agent : KnownAgent)
    (metrics : PerformanceMetrics) : ℚ :=
  clamp (protocolBaseOf agent + ageBonusOf now agent + multiChainBonusOf agent
    - 5 + subRand M (hashString agent.id) 1 + txActivityOf M txCounts balances
    + metrics.robustnessScore / 10 + metrics.deliveryRate / 10) 25 99

def accuracyOf (M : JsMath) (agent : KnownAgent)
    (metrics : PerformanceMetrics) : ℚ :=
  clamp (protocolBaseOf agent + skillBonusOf agent - 3
    + subRand M (hashString agent.id) 2 + metrics.taskSuccessRate / 10
    + metrics.verifiableExecScore / 10) 25 99

def speedOf (M : JsMath) (agent : KnownAgent)
    (metrics : PerformanceMetrics) : ℚ :=
  clamp (protocolBaseOf agent - 5 + multiChainBonusOf agent
    + subRand M (hashString agent.id) 3 + (1 - metrics.normalizedLatency) * 10
    + metrics.efficiencyScore / 10) 25 99

def trustOf (M : JsMath) (now : ℚ) (txCounts : List (ChainId × ℚ))
    (balances : List (ChainId × ℤ)) (agent : KnownAgent)
    (metrics : PerformanceMetrics) : ℚ :=
  clamp (protocolBaseOf agent + ageBonusOf now agent
    + subRand M (hashString agent.id) 4 + balanceBonusOf M txCounts balances
    + metrics.safetyScore / 10 + metrics.transparencyScore / 10
    + metrics.userFeedback / 10) 25 99

/-- `onChainWeight = isUserSubmitted ? 0.5 : 0.3`. -/
def onChainWeightOf (agent : KnownAgent) : ℚ :=
  if agent.source = AgentSource.userSubmitted then 0.5 else 0.3

/-- The overall score before clamping (`rawOverall`). -/
def rawOverallOf (M : JsMath) (now : ℚ) (txCounts : List (ChainId × ℚ))
    (balances : List (ChainId × ℤ)) (agent : KnownAgent)
    (metrics : PerformanceMetrics) : ℚ :=
  reliabilityOf M now txCounts balances agent metrics * 0.30 +
  accuracyOf M agent metrics * 0.25 +
  speedOf M agent metrics * 0.20 +
  trustOf M now txCounts balances agent metrics * 0.25 +
  onChainBonusOf M txCounts balances * onChainWeightOf agent +
  (seeded M ((hashString agent.id : ℚ) + 5) * 8 - 4)

def overallOf (M : JsMath) (now : ℚ) (txCounts : List (ChainId × ℚ))
    (balances : List (ChainId × ℤ)) (agent : KnownAgent)
    (metrics : PerformanceMetrics) : ℚ :=
  clamp (rawOverallOf M now txCounts balances agent metrics) 20 99

/-- One day of the 30-day history loop:
`histScore = clamp(histScore + dayVariation + drift, 20, 99); history.push(Math.round(histScore))`. -/
def historyStep (M : JsMath) (h : ℤ) (drift : ℚ) (state : ℚ × List ℚ) (i : ℕ) :
    ℚ × List ℚ :=
  let dayVariation := seeded M ((h : ℚ) * 100 + (i : ℚ)) * 4 - 2
  let histScore := clamp (state.1 + dayVariation + drift) 20 99
  (histScore, state.2 ++ [jsRound histScore])

/-- The 30-point synthetic history (`onchain.ts` lines 385-392), starting
three points below `overall` with per-agent drift `seeded(h + 50) * 0.2 - 0.1`. -/
def historyOf (M : JsMath) (h : ℤ) (overall : ℚ) : List ℚ :=
  let drift := seeded M ((h : ℚ) + 50) * 0.2 - 0.1
  ((List.range 30).foldl (historyStep M h drift) (overall - 3, [])).2

/-- The trend computation (`onchain.ts` lines 394-398):
`recent7` is the mean of `history.slice(-7)`, `older7` the mean of
`history.slice(-14, -7)`; `up` above `+1.5`, `down` below `−1.5`. -/
def trendOf (history : List ℚ) : Trend :=
  let recent7 := (history.drop (history.length - 7)).sum / 7
  let older7 := ((history.drop (history.length - 14)).take 7).sum / 7
  if recent7 - older7 > 1.5 then Trend.up
  else if recent7 - older7 < -1.5 then Trend.down
  else Trend.stable

/-- `computeReputation` from `onchain.ts` (lines 296-409).  `now` is the
value of `Date.now()` during the call; the `txs` parameter is accepted and,
as in the source, never used. -/
def computeReputation (M : JsMath) (now : ℚ) (txCounts : List (ChainId × ℚ))
    (balances : List (ChainId × ℤ)) (agent : KnownAgent)
    (txs : List Transaction) (metrics : PerformanceMetrics) : ReputationScore :=
  let overall := overallOf M now txCounts balances agent metrics
  let history := historyOf M (hashString agent.id) overall
  { overall := overall
    reliability := reliabilityOf M now txCounts balances agent metrics
    accuracy := accuracyOf M agent metrics
    speed := speedOf M agent metrics
    trustworthiness := trustOf M now txCounts balances agent metrics
    trend := trendOf history
    historyLast30Days := history }

/-! ## On-chain signal fetchers (`onchain.ts` lines 144-187)

The per-chain RPC call is modelled as an environment
`ChainId → Except Unit ℤ` (`.error` = the awaited promise rejected).
Each per-chain task wraps its call in `try/catch`, returning a zero
contribution on failure, so the task itself always fulfils; this is
modelled by the task returning `Except.ok` in both branches.
`Promise.allSettled` + the keep-fulfilled loop is `filterMap Except.toOption`. -/

/-- `chains.filter((c) => c !== "solana")`. -/
def evmChainsOf (chains : List ChainId) : List ChainId :=
  chains.filter (fun c => decide (c ≠ ChainId.solana))

/-- The per-chain task of `fetchBalances`:
`try { return { chain, balance: await getBalance(chain, address) } } catch { return { chain, balance: 0n } }`. -/
def balanceTask (getBal : ChainId → Except Unit ℤ) (chain : ChainId) :
    Except Unit (ChainId × ℤ) :=
  match getBal chain with
  | Except.ok b => Except.ok (chain, b)
  | Except.error _ => Except.ok (chain, 0)

/-- `fetchBalances`: map the wrapped task over the EVM chains, settle all,
keep the fulfilled results. -/
def fetchBalances (getBal : ChainId → Except Unit ℤ) (chains : List ChainId) :
    List (ChainId × ℤ) :=
  ((evmChainsOf chains).map (balanceTask getBal)).filterMap Except.toOption

/-- The per-chain task of `fetchTxCounts`:
`try { return { chain, count: await getTransactionCount(chain, address) } } catch { return { chain, count: 0 } }`. -/
def countTask (getCnt : ChainId → Except Unit ℚ) (chain : ChainId) :
    Except Unit (ChainId × ℚ) :=
  match getCnt chain with
  | Except.ok c => Except.ok (chain, c)
  | Except.error _ => Except.ok (chain, 0)

/-- `fetchTxCounts`: the record `counts[chain] = count` built from the
fulfilled results, modelled as the association list in settlement order. -/
def fetchTxCounts (getCnt : ChainId → Except Unit ℚ) (chains : List ChainId) :
    List (ChainId × ℚ) :=
  ((evmChainsOf chains).map (countTask getCnt)).filterMap Except.toOption

/-! ## `buildAgent` fragments (`onchain.ts` lines 419-539) -/

/-- The signal-selection step of `buildAgent` (lines 420-433): with a wallet
address the fetched data is used, without one every signal is empty. -/
def buildSignals (known : KnownAgent) (fetchedTx : List (ChainId × ℚ))
    (fetchedBal : List (ChainId × ℤ)) (fetchedTransfers : List Transaction) :
    List (ChainId × ℚ) × List (ChainId × ℤ) × List Transaction :=
  if known.walletAddress.isSome then (fetchedTx, fetchedBal, fetchedTransfers)
  else ([], [], [])

/-- The `successRate` computation of `buildAgent` (lines 442-446): measured
from the transfer list when it is non-empty, otherwise
`clamp(Math.round(85 + seeded(h + 300) * 14), 85, 99)`. -/
def successRateOf (M : JsMath) (transactions : List Transaction) (h : ℤ) : ℚ :=
  if 0 < transactions.length then
    jsRound (((transactions.filter
      (fun t => decide (t.status = TxStatus.success))).length : ℚ) /
      (transactions.length : ℚ) * 100)
  else clamp (jsRound (85 + seeded M ((h : ℚ) + 300) * 14)) 85 99

/-- The estimated success rate as a function of the entity id alone
(the walletless / empty-transfer branch of `successRateOf`). -/
def estSuccessRate (M : JsMath) (id : String) : ℚ :=
  clamp (jsRound (85 + seeded M ((hashString id : ℚ) + 300) * 14)) 85 99

/-! ## `getAllAgents` batching (`onchain.ts` lines 678-689)

`buildAgent` is an async call that may throw; it is modelled as an
environment `KnownAgent → Except Unit Agent`.  The loop takes batches of
five, `Promise.allSettled`s the batch, and keeps the fulfilled builds. -/

/-- One settled batch: `(await Promise.allSettled(batch.map(buildAgent)))`
with only the fulfilled values pushed. -/
def settleBatch (build : KnownAgent → Except Unit Agent)
    (batch : List KnownAgent) : List Agent :=
  (batch.map build).filterMap Except.toOption

/-- The batch loop of `getAllAgents` (`batchSize = 5`). -/
def batchedBuild (build : KnownAgent → Except Unit Agent) :
    List KnownAgent → List Agent
  | [] => []
  | k :: rest =>
    settleBatch build ((k :: rest).take 5) ++
      batchedBuild build ((k :: rest).drop 5)
termination_by l => l.length
decreasing_by simp [List.length_drop]; omega

/-- `agents.sort((a, b) => b.reputation.overall - a.reputation.overall)`:
a sorted-by-overall-descending permutation of the built list. -/
def sortByOverall (agents : List Agent) : List Agent :=
  agents.mergeSort (fun a b => decide (b.reputation.overall ≤ a.reputation.overall))

/-- `getAllAgents` after the registry merge, as a function of the build
environment and the merged known-agent list (the in-memory cache, a stale
read optimisation, is outside this claim's scope). -/
def getAllAgentsPure (build : KnownAgent → Except Unit Agent)
    (allKnownAgents : List KnownAgent) : List Agent :=
  sortByOverall (batchedBuild build allKnownAgents)

/-! ## RPC client (`src/lib/rpc.ts`)

`fetch(endpoint, init)` is modelled by an environment mapping the request
to `Option FetchResponse` (`none` = the fetch promise rejected).  The
`RequestInit` the source passes has exactly `method`, `headers` and `body`;
the fetch API's timeout mechanism (an `AbortSignal` in the init) is
represented by the `signalTimeoutMs` field, which the source never sets. -/

structure RpcPayload where
  jsonrpc : String
  id : ℚ
  method : String
  params : String
deriving DecidableEq, Repr

structure FetchInit where
  url : String
  method : String
  headers : List (String × String)
  body : RpcPayload
  /-- Timeout attached through an `AbortSignal` in the init; the source
  passes no such option, so every request it builds carries `none`. -/
  signalTimeoutMs : Option ℚ
deriving DecidableEq, Repr

structure FetchResponse where
  ok : Bool
  statusText : String
  jsonError : Option String
  jsonResult : String
deriving DecidableEq, Repr

/-- The single request `rpcCall` builds:
`fetch(endpoint, { method: "POST", headers: ..., body: JSON.stringify({ jsonrpc: "2.0", id: 1, method, params }) })`. -/
def rpcRequest (endpoint method params : String) : FetchInit :=
  { url := endpoint
    method := "POST"
    headers := [("Content-Type", "application/json")]
    body := { jsonrpc := "2.0", id := 1, method := method, params := params }
    signalTimeoutMs := none }

/-- `rpcCall` from `rpc.ts`: one fetch; non-ok responses and JSON-RPC error
members raise, otherwise the result is returned.  The first component is
the trace of requests issued during the call. -/
def rpcCall (env : FetchInit → Option FetchResponse)
    (endpoint method params : String) : List FetchInit × Except String String :=
  let req := rpcRequest endpoint method params
  match env req with
  | none => ([req], Except.error "fetch rejected")
  | some res =>
    if !res.ok then ([req], Except.error ("RPC error: " ++ res.statusText))
    else
      match res.jsonError with
      | some msg => ([req], Except.error ("RPC error: " ++ msg))
      | none => ([req], Except.ok res.jsonResult)

def ANKR_ADVANCED_API : String := "https://rpc.ankr.com/multichain"

/-- `ankrAdvancedCall` from `rpc.ts`: identical single-fetch shape against
the fixed Advanced API endpoint. -/
def ankrAdvancedCall (env : FetchInit → Option FetchResponse)
    (method params : String) : List FetchInit × Except String String :=
  let req := rpcRequest ANKR_ADVANCED_API method params
  match env req with
  | none => ([req], Except.error "fetch rejected")
  | some res =>
    if !res.ok then ([req], Except.error ("Ankr API error: " ++ res.statusText))
    else
      match res.jsonError with
      | some msg => ([req], Except.error ("Ankr API error: " ++ msg))
      | none => ([req], Except.ok res.jsonResult)

/-! ## Trend windows named by the spec (for the refinement comparison) -/

/-- The trend recomputation exactly as claim C4 words it: windows at days
15–21 and 22–28 counting back from the end (positions `len−21 ..< len−14`
and `len−28 ..< len−21`), threshold ±1.5. -/
def specTrendFarWindows (history : List ℚ) : Trend :=
  let recentWin := ((history.drop (history.length - 21)).take 7).sum / 7
  let olderWin := ((history.drop (history.length - 28)).take 7).sum / 7
  if recentWin - olderWin > 1.5 then Trend.up
  else if recentWin - olderWin < -1.5 then Trend.down
  else Trend.stable

/-- The amended trend specification: mean of the last 7 values (days 1–7
counting back, positions 23–29 of the 30-point series) against the mean of
the preceding 7 (days 8–14 back, positions 16–22), threshold ±1.5. -/
def specTrendNearWindows (history : List ℚ) : Trend :=
  let recent7 := (history.drop 23).sum / 7
  let older7 := ((history.drop 16).take 7).sum / 7
  if recent7 - older7 > 1.5 then Trend.up
  else if recent7 - older7 < -1.5 then Trend.down
  else Trend.stable

/-! ## Basic lemmas about the numeric primitives -/

theorem ratFloor_eq_floor (q : ℚ) : ratFloor q = ⌊q⌋ := by
  rw [Rat.floor_def]
  rfl

theorem jsRound_eq_floor (x : ℚ) : jsRound x = ((⌊x + 1/2⌋ : ℤ) : ℚ) := by
  unfold jsRound
  rw [ratFloor_eq_floor]

theorem jsRound_isInt (x : ℚ) : isInt (jsRound x) := ⟨ratFloor (x + 1/2), rfl⟩

theorem jsRound_mono {x y : ℚ} (h : x ≤ y) : jsRound x ≤ jsRound y := by
  rw [jsRound_eq_floor, jsRound_eq_floor]
  exact_mod_cast Int.floor_mono (by linarith)

theorem intCast_le_jsRound {n : ℤ} {x : ℚ} (h : (n : ℚ) ≤ x) :
    (n : ℚ) ≤ jsRound x := by
  rw [jsRound_eq_floor]
  exact_mod_cast Int.le_floor.mpr (by linarith)

theorem jsRound_le_intCast {n : ℤ} {x : ℚ} (h : x ≤ (n : ℚ)) :
    jsRound x ≤ (n : ℚ) := by
  rw [jsRound_eq_floor]
  have : ⌊x + 1/2⌋ ≤ ⌊(n : ℚ) + 1/2⌋ := Int.floor_mono (by linarith)
  have hn : ⌊(n : ℚ) + 1/2⌋ = n := by
    rw [Int.floor_int_add]
    norm_num
  exact_mod_cast hn ▸ this

theorem jsRound_eq_of_isInt {q : ℚ} (h : isInt q) : jsRound q = q := by
  obtain ⟨n, rfl⟩ := h
  rw [jsRound_eq_floor, Int.floor_int_add]
  norm_num

theorem isInt_min {a b : ℚ} (ha : isInt a) (hb : isInt b) : isInt (min a b) := by
  obtain ⟨m, rfl⟩ := ha
  obtain ⟨n, rfl⟩ := hb
  exact ⟨min m n, (Int.cast_min).symm⟩

theorem isInt_max {a b : ℚ} (ha : isInt a) (hb : isInt b) : isInt (max a b) := by
  obtain ⟨m, rfl⟩ := ha
  obtain ⟨n, rfl⟩ := hb
  exact ⟨max m n, (Int.cast_max).symm⟩

theorem isInt_intCast (n : ℤ) : isInt ((n : ℤ) : ℚ) := ⟨n, rfl⟩

/-- `Math.max` agrees with the lattice `max` on rationals. -/
theorem jsMax_eq_max (a b : ℚ) : jsMax a b = max a b := (max_def a b).symm

/-- `Math.min` agrees with the lattice `min` on rationals. -/
theorem jsMin_eq_min (a b : ℚ) : jsMin a b = min a b := (min_def a b).symm

theorem clamp_eq_max_min (v lo hi : ℚ) :
    clamp v lo hi = max lo (min hi (jsRound v)) := by
  unfold clamp
  rw [jsMax_eq_max, jsMin_eq_min]

theorem isInt_clamp (v : ℚ) {lo hi : ℚ} (hlo : isInt lo) (hhi : isInt hi) :
    isInt (clamp v lo hi) := by
  rw [clamp_eq_max_min]
  exact isInt_max hlo (isInt_min hhi (jsRound_isInt v))

theorem le_clamp (v : ℚ) (lo hi : ℚ) : lo ≤ clamp v lo hi := by
  rw [clamp_eq_max_min]
  exact le_max_left _ _

theorem clamp_le (v : ℚ) {lo hi : ℚ} (h : lo ≤ hi) : clamp v lo hi ≤ hi := by
  rw [clamp_eq_max_min]
  exact max_le h (min_le_left _ _)

theorem clamp_mono {v w : ℚ} (lo hi : ℚ) (h : v ≤ w) :
    clamp v lo hi ≤ clamp w lo hi := by
  rw [clamp_eq_max_min, clamp_eq_max_min]
  exact max_le_max le_rfl (min_le_min le_rfl (jsRound_mono h))

/-- `jsRound` fixes the values `clamp` produces (they are integers), so the
`Math.round(histScore)` pushed into the history equals `histScore` itself. -/
theorem jsRound_clamp (v lo hi : ℚ) (hlo : isInt lo) (hhi : isInt hi) :
    jsRound (clamp v lo hi) = clamp v lo hi :=
  jsRound_eq_of_isInt (isInt_clamp v hlo hhi)

/-- The central PRNG fact: `seeded` lands in `[0, 1)` whatever `Math.sin`
returns, because `x - Math.floor(x)` is the fractional part. -/
theorem seeded_eq_fract (M : JsMath) (s : ℚ) :
    seeded M s = Int.fract (M.sin (s * 9301 + 49297) * 233280) := by
  show M.sin (s * 9301 + 49297) * 233280 -
    ((ratFloor (M.sin (s * 9301 + 49297) * 233280) : ℤ) : ℚ) = _
  rw [ratFloor_eq_floor]
  rfl

theorem seeded_nonneg (M : JsMath) (s : ℚ) : 0 ≤ seeded M s := by
  rw [seeded_eq_fract]
  exact Int.fract_nonneg _

theorem seeded_lt_one (M : JsMath) (s : ℚ) : seeded M s < 1 := by
  rw [seeded_eq_fract]
  exact Int.fract_lt_one _

/-! ## History lemmas -/

theorem isInt_twenty : isInt (20 : ℚ) := ⟨20, by norm_num⟩

theorem isInt_ninetynine : isInt (99 : ℚ) := ⟨99, by norm_num⟩

theorem historyFold_length (M : JsMath) (h : ℤ) (drift : ℚ) :
    ∀ (n : ℕ) (s : ℚ) (acc : List ℚ),
      (((List.range n).foldl (historyStep M h drift) (s, acc)).2).length =
        acc.length + n := by
  intro n
  induction n with
  | zero => intro s acc; simp
  | succ m ih =>
    intro s acc
    rw [List.range_succ, List.foldl_append]
    have := ih s acc
    simp only [List.foldl_cons, List.foldl_nil, historyStep, List.length_append,
      List.length_cons, List.length_nil]
    omega

theorem historyFold_mem (M : JsMath) (h : ℤ) (drift : ℚ) :
    ∀ (n : ℕ) (s : ℚ) (acc : List ℚ),
      (∀ v ∈ acc, isInt v ∧ 20 ≤ v ∧ v ≤ 99) →
      ∀ v ∈ ((List.range n).foldl (historyStep M h drift) (s, acc)).2,
        isInt v ∧ 20 ≤ v ∧ v ≤ 99 := by
  intro n
  induction n with
  | zero => intro s acc hacc; simpa using hacc
  | succ m ih =>
    intro s acc hacc v hv
    rw [List.range_succ, List.foldl_append] at hv
    simp only [List.foldl_cons, List.foldl_nil, historyStep] at hv
    rcases List.mem_append.mp hv with hmem | hsing
    · exact ih s acc hacc v hmem
    · have hv' := List.mem_singleton.mp hsing
      subst hv'
      rw [jsRound_clamp _ _ _ isInt_twenty isInt_ninetynine]
      exact ⟨isInt_clamp _ isInt_twenty isInt_ninetynine,
        le_clamp _ _ _, clamp_le _ (by norm_num)⟩

theorem historyOf_length (M : JsMath) (h : ℤ) (overall : ℚ) :
    (historyOf M h overall).length = 30 := by
  unfold historyOf
  rw [historyFold_length]
  simp

theorem historyOf_mem (M : JsMath) (h : ℤ) (overall : ℚ) :
    ∀ v ∈ historyOf M h overall, isInt v ∧ 20 ≤ v ∧ v ≤ 99 := by
  unfold historyOf
  exact historyFold_mem M h _ 30 (overall - 3) [] (by simp)

/-! ## Concrete fixtures used by witnesses and counterexamples -/

/-- A concrete stand-in for the `Math` primitives: `sin` constantly `0`
(a value real `Math.sin` also takes), `log1p` the identity. -/
def jsMathZero : JsMath := ⟨fun _ => 0, fun x => x⟩

def agentAlpha : KnownAgent :=
  { id := "a", name := "Alpha", description := "", protocol := "p"
    walletAddress := none, chains := [ChainId.ethereum]
    skills := [AgentSkill.defi], website := none, twitter := none
    createdAtMs := 0, source := AgentSource.userSubmitted }

def metricsZero : PerformanceMetrics :=
  { taskSuccessRate := 0, robustnessScore := 0, deliveryRate := 0
    normalizedLatency := 0, efficiencyScore := 0, safetyScore := 0
    transparencyScore := 0, userFeedback := 0, verifiableExecScore := 0 }

/-! ## Claim theorems -/

theorem isInt_twentyfive : isInt (25 : ℚ) := ⟨25, by norm_num⟩

/-- C2: every `ReputationScore` the composer produces has an integer
`overall` in `[20, 99]`, integer sub-scores in `[25, 99]`, and a 30-point
history whose every value is an integer in `[20, 99]`. -/
theorem computeReputation_bounds (M : JsMath) (now : ℚ)
    (txCounts : List (ChainId × ℚ)) (balances : List (ChainId × ℤ))
    (agent : KnownAgent) (txs : List Transaction)
    (metrics : PerformanceMetrics) :
    (isInt (computeReputation M now txCounts balances agent txs metrics).overall ∧
      20 ≤ (computeReputation M now txCounts balances agent txs metrics).overall ∧
      (computeReputation M now txCounts balances agent txs metrics).overall ≤ 99) ∧
    (isInt (computeReputation M now txCounts balances agent txs metrics).reliability ∧
      25 ≤ (computeReputation M now txCounts balances agent txs metrics).reliability ∧
      (computeReputation M now txCounts balances agent txs metrics).reliability ≤ 99) ∧
    (isInt (computeReputation M now txCounts balances agent txs metrics).accuracy ∧
      25 ≤ (computeReputation M now txCounts balances agent txs metrics).accuracy ∧
      (computeReputation M now txCounts balances agent txs metrics).accuracy ≤ 99) ∧
    (isInt (computeReputation M now txCounts balances agent txs metrics).speed ∧
      25 ≤ (computeReputation M now txCounts balances agent txs metrics).speed ∧
      (computeReputation M now txCounts balances agent txs metrics).speed ≤ 99) ∧
    (isInt (computeReputation M now txCounts balances agent txs metrics).trustworthiness ∧
      25 ≤ (computeReputation M now txCounts balances agent txs metrics).trustworthiness ∧
      (computeReputation M now txCounts balances agent txs metrics).trustworthiness ≤ 99) ∧
    (computeReputation M now txCounts balances agent txs metrics).historyLast30Days.length = 30 ∧
    ∀ v ∈ (computeReputation M now txCounts balances agent txs metrics).historyLast30Days,
      isInt v ∧ 20 ≤ v ∧ v ≤ 99 := by
  refine ⟨⟨?_, ?_, ?_⟩, ⟨?_, ?_, ?_⟩, ⟨?_, ?_, ?_⟩, ⟨?_, ?_, ?_⟩, ⟨?_, ?_, ?_⟩, ?_, ?_⟩
  · exact isInt_clamp _ isInt_twenty isInt_ninetynine
  · exact le_clamp _ _ _
  · exact clamp_le _ (by norm_num)
  · exact isInt_clamp _ isInt_twentyfive isInt_ninetynine
  · exact le_clamp _ _ _
  · exact clamp_le _ (by norm_num)
  · exact isInt_clamp _ isInt_twentyfive isInt_ninetynine
  · exact le_clamp _ _ _
  · exact clamp_le _ (by norm_num)
  · exact isInt_clamp _ isInt_twentyfive isInt_ninetynine
  · exact le_clamp _ _ _
  · exact clamp_le _ (by norm_num)
  · exact isInt_clamp _ isInt_twentyfive isInt_ninetynine
  · exact le_clamp _ _ _
  · exact clamp_le _ (by norm_num)
  · exact historyOf_length M (hashString agent.id) _
  · exact historyOf_mem M (hashString agent.id) _

/-- C1 (counterexample): `computeReputation` is NOT a function of the
entity metadata and on-chain signals alone — it reads `Date.now()` for the
age bonus, so two calls with identical metadata, identical signals, and
identical PRNG but different clock readings (here: at the agent's creation
instant and 25 months later) return different reliability sub-scores
(25 versus 35). -/
theorem computeReputation_clock_dependent :
    (computeReputation jsMathZero 0 [] [] agentAlpha [] metricsZero).reliability = 25 ∧
    (computeReputation jsMathZero 64800000000 [] [] agentAlpha [] metricsZero).reliability = 35 := by
  constructor <;> decide

/-- C1 (amended): `computeReputation` is deterministic once the clock is
counted among its inputs — calls agreeing on the `Math` primitives, the
clock reading, the entity metadata, the on-chain signals and the metrics
yield byte-identical `ReputationScore` values — and `seeded` is a pure,
stateless function of its numeric seed. -/
theorem computeReputation_deterministic (M : JsMath) (now now' : ℚ)
    (txCounts txCounts' : List (ChainId × ℚ)) (balances balances' : List (ChainId × ℤ))
    (agent agent' : KnownAgent) (txs txs' : List Transaction)
    (metrics metrics' : PerformanceMetrics)
    (hnow : now = now') (htc : txCounts = txCounts') (hbal : balances = balances')
    (hagent : agent = agent') (htxs : txs = txs') (hm : metrics = metrics') :
    computeReputation M now txCounts balances agent txs metrics =
      computeReputation M now' txCounts' balances' agent' txs' metrics' ∧
    ∀ s s' : ℚ, s = s' → seeded M s = seeded M s' := by
  subst hnow htc hbal hagent htxs hm
  exact ⟨rfl, fun s s' h => h ▸ rfl⟩

/-- Witness for `computeReputation_deterministic` at concrete inputs. -/
theorem computeReputation_deterministic_witness :
    ((0 : ℚ) = 0 ∧ ([] : List (ChainId × ℚ)) = [] ∧ ([] : List (ChainId × ℤ)) = [] ∧
      agentAlpha = agentAlpha ∧ ([] : List Transaction) = [] ∧ metricsZero = metricsZero) ∧
    (computeReputation jsMathZero 0 [] [] agentAlpha [] metricsZero =
      computeReputation jsMathZero 0 [] [] agentAlpha [] metricsZero ∧
    ∀ s s' : ℚ, s = s' → seeded jsMathZero s = seeded jsMathZero s') :=
  ⟨⟨rfl, rfl, rfl, rfl, rfl, rfl⟩,
    computeReputation_deterministic jsMathZero 0 0 [] [] [] [] agentAlpha agentAlpha
      [] [] metricsZero metricsZero rfl rfl rfl rfl rfl rfl⟩

/-- C3: for a walletless entity, `buildAgent` feeds empty signal bundles to
the composer, under which the tx-activity, balance and chain-activity terms
and hence the whole on-chain bonus are zero, and the synthesised
verifiable-execution metric is zero; moreover `verifiableExecScore` is
forced to zero for every user-submitted entity regardless of wallet. -/
theorem walletless_zero_bonus (M : JsMath) (now : ℚ) (agent : KnownAgent)
    (fetchedTx : List (ChainId × ℚ)) (fetchedBal : List (ChainId × ℤ))
    (fetchedTransfers : List Transaction)
    (totalTx balanceEth successRate : ℚ) (h : ℤ) :
    (agent.walletAddress = none →
      txActivityOf M (buildSignals agent fetchedTx fetchedBal fetchedTransfers).1
        (buildSignals agent fetchedTx fetchedBal fetchedTransfers).2.1 = 0 ∧
      balanceBonusOf M (buildSignals agent fetchedTx fetchedBal fetchedTransfers).1
        (buildSignals agent fetchedTx fetchedBal fetchedTransfers).2.1 = 0 ∧
      multiChainActOf (buildSignals agent fetchedTx fetchedBal fetchedTransfers).1
        (buildSignals agent fetchedTx fetchedBal fetchedTransfers).2.1 = 0 ∧
      onChainBonusOf M (buildSignals agent fetchedTx fetchedBal fetchedTransfers).1
        (buildSignals agent fetchedTx fetchedBal fetchedTransfers).2.1 = 0 ∧
      (generatePerformanceMetrics M now agent totalTx balanceEth successRate h).verifiableExecScore = 0) ∧
    (agent.source = AgentSource.userSubmitted →
      (generatePerformanceMetrics M now agent totalTx balanceEth successRate h).verifiableExecScore = 0) := by
  constructor
  · intro hw
    have hsig : buildSignals agent fetchedTx fetchedBal fetchedTransfers =
        ([], [], []) := by
      unfold buildSignals
      rw [hw]
      rfl
    rw [hsig]
    have hnw : ¬ hasWalletOf ([] : List (ChainId × ℚ)) ([] : List (ChainId × ℤ)) := by
      decide
    refine ⟨?_, ?_, ?_, ?_, ?_⟩
    · unfold txActivityOf; rw [if_neg hnw]
    · unfold balanceBonusOf; rw [if_neg hnw]
    · unfold multiChainActOf; rw [if_neg hnw]
    · unfold onChainBonusOf txActivityOf balanceBonusOf multiChainActOf
      rw [if_neg hnw, if_neg hnw, if_neg hnw]
      norm_num
    · unfold generatePerformanceMetrics
      simp only [hw]
      simp
  · intro hs
    unfold generatePerformanceMetrics
    simp only
    rw [if_pos (Or.inl hs)]

/-- Witness for `walletless_zero_bonus` at a concrete walletless,
user-submitted entity. -/
theorem walletless_zero_bonus_witness :
    (agentAlpha.walletAddress = none ∧ agentAlpha.source = AgentSource.userSubmitted) ∧
    onChainBonusOf jsMathZero (buildSignals agentAlpha [(ChainId.ethereum, 7)]
      [(ChainId.ethereum, 5)] []).1 (buildSignals agentAlpha [(ChainId.ethereum, 7)]
      [(ChainId.ethereum, 5)] []).2.1 = 0 ∧
    (generatePerformanceMetrics jsMathZero 0 agentAlpha 7 5 90 97).verifiableExecScore = 0 :=
  ⟨⟨rfl, rfl⟩,
    ((walletless_zero_bonus jsMathZero 0 agentAlpha [(ChainId.ethereum, 7)]
      [(ChainId.ethereum, 5)] [] 7 5 90 97).1 rfl).2.2.2.1,
    (walletless_zero_bonus jsMathZero 0 agentAlpha [(ChainId.ethereum, 7)]
      [(ChainId.ethereum, 5)] [] 7 5 90 97).2 rfl⟩

/-- A `Math.sin` stand-in driving `seeded` to `0.5` (so zero noise and zero
drift) at all the sub-score, overall and drift seeds of agent `"a"`
(`hashString "a" = 97`) and at the day-variation seeds of days 0–22, and to
`0.9` (day variation `+1.6`) at the seeds of days 23–29 — the first day-23
sine argument is `(97*100+23)*9301+49297 = 90482920`. -/
def jsMathTrend : JsMath :=
  ⟨fun u => if u < 90482920 then 0.5 / 233280 else 0.9 / 233280, fun _ => 0⟩

set_option maxRecDepth 100000 in
/-- C4 (counterexample): an input on which the composer's trend label (`up`,
from the genuinely-used windows: last 7 days versus the 7 before them) differs
from the label recomputed over the windows the claim states, days 15–21
versus days 22–28 counting back from the end (`stable` — both those windows
lie in the flat part of the generated history). -/
theorem trend_window_counterexample :
    (computeReputation jsMathTrend 0 [] [] agentAlpha [] metricsZero).trend = Trend.up ∧
    specTrendFarWindows
      ((computeReputation jsMathTrend 0 [] [] agentAlpha [] metricsZero).historyLast30Days) =
      Trend.stable := by
  constructor <;> decide

/-- C4 (amended): the trend label of the generated history is computed from
the mean of the LAST seven values (days 1–7 counting back from the end;
positions 23–29 of the 30-point series) against the mean of the PRECEDING
seven (days 8–14 back; positions 16–22), with the ±1.5 threshold. -/
theorem computeReputation_trend_windows (M : JsMath) (now : ℚ)
    (txCounts : List (ChainId × ℚ)) (balances : List (ChainId × ℤ))
    (agent : KnownAgent) (txs : List Transaction)
    (metrics : PerformanceMetrics) :
    (computeReputation M now txCounts balances agent txs metrics).trend =
      specTrendNearWindows
        ((computeReputation M now txCounts balances agent txs metrics).historyLast30Days) := by
  show trendOf (historyOf M (hashString agent.id) _) =
    specTrendNearWindows (historyOf M (hashString agent.id) _)
  have hlen := historyOf_length M (hashString agent.id)
    (overallOf M now txCounts balances agent metrics)
  unfold trendOf specTrendNearWindows
  rw [hlen]

/-! ## Monotonicity support lemmas (C5) -/

theorem jsRound_zero : jsRound 0 = 0 := jsRound_eq_of_isInt ⟨0, by norm_num⟩

theorem totalTx_zero {tc : List (ChainId × ℚ)} (h : ∀ p ∈ tc, p.2 = 0) :
    totalTxOf tc = 0 := by
  unfold totalTxOf
  apply List.sum_eq_zero
  intro x hx
  obtain ⟨p, hp, rfl⟩ := List.mem_map.mp hx
  exact h p hp

theorem chainsActive_zero {tc : List (ChainId × ℚ)} (h : ∀ p ∈ tc, p.2 = 0) :
    chainsActiveOf tc = 0 := by
  unfold chainsActiveOf
  rw [List.length_eq_zero, List.filter_eq_nil_iff]
  intro x hx
  obtain ⟨p, hp, rfl⟩ := List.mem_map.mp hx
  rw [h p hp]
  simp

theorem balanceEth_nonneg {bal : List (ChainId × ℤ)} (h : ∀ b ∈ bal, 0 ≤ b.2) :
    0 ≤ balanceEthOf bal := by
  unfold balanceEthOf totalBalanceOf
  apply div_nonneg _ (by norm_num)
  have hz : (0 : ℤ) ≤ (bal.map Prod.snd).sum := by
    apply List.sum_nonneg
    intro x hx
    obtain ⟨p, hp, rfl⟩ := List.mem_map.mp hx
    exact h p hp
  exact_mod_cast hz

/-- C5: holding the entity, metrics, balances, transfer list and PRNG fixed,
raising the summed transaction count from zero (every per-chain count zero)
to any positive total never decreases the reliability sub-score or the
overall score.  `log1p` enters only through the standard facts
`log1p 0 = 0` and `log1p ≥ 0 on nonnegatives`. -/
theorem totalTx_monotone (M : JsMath) (now : ℚ) (balances : List (ChainId × ℤ))
    (agent : KnownAgent) (txs : List Transaction) (metrics : PerformanceMetrics)
    (tc0 tc1 : List (ChainId × ℚ))
    (hlog0 : M.log1p 0 = 0)
    (hlogpos : ∀ x : ℚ, 0 ≤ x → 0 ≤ M.log1p x)
    (hbal : ∀ b ∈ balances, 0 ≤ b.2)
    (h0 : ∀ p ∈ tc0, p.2 = (0 : ℚ))
    (h1 : 0 < totalTxOf tc1) :
    (computeReputation M now tc0 balances agent txs metrics).reliability ≤
      (computeReputation M now tc1 balances agent txs metrics).reliability ∧
    (computeReputation M now tc0 balances agent txs metrics).overall ≤
      (computeReputation M now tc1 balances agent txs metrics).overall := by
  have ht0 : totalTxOf tc0 = 0 := totalTx_zero h0
  have hca0 : chainsActiveOf tc0 = 0 := chainsActive_zero h0
  have hB : 0 ≤ balanceEthOf balances := balanceEth_nonneg hbal
  have hw1 : hasWalletOf tc1 balances := Or.inl h1
  have htx0 : txActivityOf M tc0 balances = 0 := by
    unfold txActivityOf
    split
    · rw [ht0, hlog0]
      norm_num [jsMin, jsRound_zero]
    · rfl
  have htx1 : 0 ≤ txActivityOf M tc1 balances := by
    unfold txActivityOf
    rw [if_pos hw1, jsMin_eq_min]
    refine le_min (by norm_num) (intCast_le_jsRound (n := 0) ?_)
    have hl := hlogpos _ (le_of_lt h1)
    push_cast
    linarith
  have hmc0 : multiChainActOf tc0 balances = 0 := by
    unfold multiChainActOf
    split
    · rw [hca0]
      norm_num [jsMin]
    · rfl
  have hmc1 : 0 ≤ multiChainActOf tc1 balances := by
    unfold multiChainActOf
    rw [if_pos hw1, jsMin_eq_min]
    exact le_min (by norm_num) (by positivity)
  have hbb : balanceBonusOf M tc0 balances = balanceBonusOf M tc1 balances := by
    unfold balanceBonusOf
    rw [if_pos hw1]
    by_cases hw0 : hasWalletOf tc0 balances
    · rw [if_pos hw0]
    · rw [if_neg hw0]
      have hBz : balanceEthOf balances = 0 := by
        unfold hasWalletOf at hw0
        push_neg at hw0
        exact le_antisymm hw0.2 hB
      rw [hBz, hlog0]
      norm_num [jsMin, jsRound_zero]
  have hrel : reliabilityOf M now tc0 balances agent metrics ≤
      reliabilityOf M now tc1 balances agent metrics := by
    unfold reliabilityOf
    apply clamp_mono
    rw [htx0]
    linarith
  have htr : trustOf M now tc0 balances agent metrics =
      trustOf M now tc1 balances agent metrics := by
    unfold trustOf
    rw [hbb]
  have hocb : onChainBonusOf M tc0 balances ≤ onChainBonusOf M tc1 balances := by
    unfold onChainBonusOf
    rw [htx0, hmc0, hbb]
    linarith
  have hov : overallOf M now tc0 balances agent metrics ≤
      overallOf M now tc1 balances agent metrics := by
    unfold overallOf rawOverallOf
    apply clamp_mono
    have hwt : 0 ≤ onChainWeightOf agent := by
      unfold onChainWeightOf
      split <;> norm_num
    have h2 := mul_le_mul_of_nonneg_right hocb hwt
    have h3 := mul_le_mul_of_nonneg_right hrel (by norm_num : (0 : ℚ) ≤ 0.30)
    rw [htr]
    linarith
  exact ⟨hrel, hov⟩

/-- Witness for `totalTx_monotone` at concrete inputs (count raised from 0
to 3 on ethereum). -/
theorem totalTx_monotone_witness :
    (jsMathZero.log1p 0 = 0 ∧ (∀ b ∈ ([] : List (ChainId × ℤ)), 0 ≤ b.2) ∧
      (∀ p ∈ [(ChainId.ethereum, (0 : ℚ))], p.2 = (0 : ℚ)) ∧
      0 < totalTxOf [(ChainId.ethereum, 3)]) ∧
    ((computeReputation jsMathZero 0 [(ChainId.ethereum, 0)] [] agentAlpha [] metricsZero).reliability ≤
      (computeReputation jsMathZero 0 [(ChainId.ethereum, 3)] [] agentAlpha [] metricsZero).reliability ∧
    (computeReputation jsMathZero 0 [(ChainId.ethereum, 0)] [] agentAlpha [] metricsZero).overall ≤
      (computeReputation jsMathZero 0 [(ChainId.ethereum, 3)] [] agentAlpha [] metricsZero).overall) :=
  ⟨⟨rfl, by decide, by decide, by decide⟩,
    totalTx_monotone jsMathZero 0 [] agentAlpha [] metricsZero
      [(ChainId.ethereum, 0)] [(ChainId.ethereum, 3)]
      rfl (fun x hx => hx) (by decide) (by decide) (by decide)⟩

/-! ## Protocol base (C6) -/

theorem lookup_mem_snd {l : List (String × ℚ)} {k : String} {v : ℚ}
    (h : l.lookup k = some v) : v ∈ l.map Prod.snd := by
  induction l with
  | nil => simp [List.lookup] at h
  | cons p rest ih =>
    obtain ⟨k', v'⟩ := p
    simp only [List.lookup] at h
    split at h
    · injection h with h
      subst h
      simp
    · simpa using Or.inr (ih h)

theorem protocol_table_band {v : ℚ} (h : v ∈ PROTOCOL_SCORES.map Prod.snd) :
    19 ≤ v ∧ v ≤ 31 := by
  simp only [PROTOCOL_SCORES, List.map_cons, List.map_nil, List.mem_cons,
    List.not_mem_nil, or_false] at h
  rcases h with rfl | rfl | rfl | rfl | rfl | rfl | rfl | rfl | rfl <;>
    exact ⟨by norm_num, by norm_num⟩

def agentBeta : KnownAgent :=
  { agentAlpha with id := "b", name := "Beta", protocol := "autonolas"
                    source := AgentSource.hardcoded }

def agentGamma : KnownAgent :=
  { agentAlpha with id := "c", name := "Gamma", protocol := "unknown-proto"
                    source := AgentSource.hardcoded }

/-- C6: the protocol base the composer uses is 19 for every user-submitted
entity regardless of its claimed protocol; the fixed table value — always
inside the 19–31 band — for a catalogued protocol of a non-user-submitted
entity; and the default 21 when the protocol is not in the table. -/
theorem protocol_base_policy :
    (∀ a : KnownAgent, a.source = AgentSource.userSubmitted →
      protocolBaseOf a = 19) ∧
    (∀ (a : KnownAgent) (v : ℚ), a.source ≠ AgentSource.userSubmitted →
      PROTOCOL_SCORES.lookup a.protocol = some v →
      protocolBaseOf a = v ∧ 19 ≤ v ∧ v ≤ 31) ∧
    (∀ a : KnownAgent, a.source ≠ AgentSource.userSubmitted →
      PROTOCOL_SCORES.lookup a.protocol = none →
      protocolBaseOf a = 21) := by
  refine ⟨?_, ?_, ?_⟩
  · intro a ha
    unfold protocolBaseOf
    rw [if_pos ha]
    rfl
  · intro a v ha hl
    unfold protocolBaseOf protocolScoreLookup
    rw [if_neg ha, hl]
    exact ⟨rfl, protocol_table_band (lookup_mem_snd hl)⟩
  · intro a ha hl
    unfold protocolBaseOf protocolScoreLookup
    rw [if_neg ha, hl]
    rfl

/-- Witness for `protocol_base_policy`: a user-submitted entity, a
catalogued `autonolas` entity, and an unknown-protocol entity. -/
theorem protocol_base_policy_witness :
    (agentAlpha.source = AgentSource.userSubmitted ∧
      agentBeta.source ≠ AgentSource.userSubmitted ∧
      PROTOCOL_SCORES.lookup agentBeta.protocol = some 31 ∧
      agentGamma.source ≠ AgentSource.userSubmitted ∧
      PROTOCOL_SCORES.lookup agentGamma.protocol = none) ∧
    (protocolBaseOf agentAlpha = 19 ∧ protocolBaseOf agentBeta = 31 ∧
      protocolBaseOf agentGamma = 21) :=
  ⟨⟨rfl, by decide, by decide, by decide, by decide⟩,
    (protocol_base_policy.1 agentAlpha rfl),
    (protocol_base_policy.2.1 agentBeta 31 (by decide) (by decide)).1,
    (protocol_base_policy.2.2 agentGamma (by decide) (by decide))⟩

/-! ## Fetch failure isolation (C7) -/

theorem filterMap_toOption_map_ok {β : Type} (g : ChainId → β)
    (l : List ChainId) :
    (l.map fun c => (Except.ok (g c) : Except Unit β)).filterMap
      Except.toOption = l.map g := by
  induction l with
  | nil => rfl
  | cons c rest ih => simp [Except.toOption, ih]

theorem balanceTask_ok (getBal : ChainId → Except Unit ℤ) (c : ChainId) :
    balanceTask getBal c =
      Except.ok (c, match getBal c with
        | Except.ok b => b
        | Except.error _ => 0) := by
  unfold balanceTask
  cases h : getBal c <;> rfl

theorem countTask_ok (getCnt : ChainId → Except Unit ℚ) (c : ChainId) :
    countTask getCnt c =
      Except.ok (c, match getCnt c with
        | Except.ok v => v
        | Except.error _ => 0) := by
  unfold countTask
  cases h : getCnt c <;> rfl

/-- C7: each per-chain balance / transaction-count query is individually
wrapped, so a chain whose RPC call fails contributes `(chain, 0)` while
every other chain's fetched value is kept; neither fetcher drops a chain or
propagates an error (they are total, with one result per EVM chain). -/
theorem fetch_failure_isolation (getBal : ChainId → Except Unit ℤ)
    (getCnt : ChainId → Except Unit ℚ) (chains : List ChainId) :
    fetchBalances getBal chains =
      (evmChainsOf chains).map (fun c => (c, match getBal c with
        | Except.ok b => b
        | Except.error _ => 0)) ∧
    fetchTxCounts getCnt chains =
      (evmChainsOf chains).map (fun c => (c, match getCnt c with
        | Except.ok v => v
        | Except.error _ => 0)) ∧
    (fetchBalances getBal chains).length = (evmChainsOf chains).length ∧
    (fetchTxCounts getCnt chains).length = (evmChainsOf chains).length ∧
    (∀ c ∈ evmChainsOf chains, ∀ e : Unit, getBal c = Except.error e →
      (c, (0 : ℤ)) ∈ fetchBalances getBal chains) ∧
    (∀ c ∈ evmChainsOf chains, ∀ b, getBal c = Except.ok b →
      (c, b) ∈ fetchBalances getBal chains) ∧
    (∀ c ∈ evmChainsOf chains, ∀ e : Unit, getCnt c = Except.error e →
      (c, (0 : ℚ)) ∈ fetchTxCounts getCnt chains) ∧
    (∀ c ∈ evmChainsOf chains, ∀ v, getCnt c = Except.ok v →
      (c, v) ∈ fetchTxCounts getCnt chains) := by
  have hbal : fetchBalances getBal chains =
      (evmChainsOf chains).map (fun c => (c, match getBal c with
        | Except.ok b => b
        | Except.error _ => 0)) := by
    unfold fetchBalances
    rw [List.map_congr_left (fun c _ => balanceTask_ok getBal c)]
    exact filterMap_toOption_map_ok _ _
  have hcnt : fetchTxCounts getCnt chains =
      (evmChainsOf chains).map (fun c => (c, match getCnt c with
        | Except.ok v => v
        | Except.error _ => 0)) := by
    unfold fetchTxCounts
    rw [List.map_congr_left (fun c _ => countTask_ok getCnt c)]
    exact filterMap_toOption_map_ok _ _
  refine ⟨hbal, hcnt, by rw [hbal]; simp, by rw [hcnt]; simp, ?_, ?_, ?_, ?_⟩
  · intro c hc e he
    rw [hbal]
    refine List.mem_map.mpr ⟨c, hc, ?_⟩
    rw [he]
  · intro c hc b hb
    rw [hbal]
    refine List.mem_map.mpr ⟨c, hc, ?_⟩
    rw [hb]
  · intro c hc e he
    rw [hcnt]
    refine List.mem_map.mpr ⟨c, hc, ?_⟩
    rw [he]
  · intro c hc v hv
    rw [hcnt]
    refine List.mem_map.mpr ⟨c, hc, ?_⟩
    rw [hv]

/-- Witness for `fetch_failure_isolation`: ethereum's call fails, base's
succeeds; ethereum contributes zero, base keeps its value. -/
theorem fetch_failure_isolation_witness :
    ((fun c => if c = ChainId.ethereum then (Except.error () : Except Unit ℤ)
        else Except.ok 7) ChainId.ethereum = Except.error () ∧
      ChainId.ethereum ∈ evmChainsOf [ChainId.ethereum, ChainId.base]) ∧
    fetchBalances
      (fun c => if c = ChainId.ethereum then (Except.error () : Except Unit ℤ)
        else Except.ok 7)
      [ChainId.ethereum, ChainId.base] =
      [(ChainId.ethereum, 0), (ChainId.base, 7)] ∧
    (ChainId.ethereum, (0 : ℤ)) ∈ fetchBalances
      (fun c => if c = ChainId.ethereum then (Except.error () : Except Unit ℤ)
        else Except.ok 7)
      [ChainId.ethereum, ChainId.base] :=
  ⟨⟨rfl, by decide⟩,
    by
      rw [(fetch_failure_isolation
        (fun c => if c = ChainId.ethereum then (Except.error () : Except Unit ℤ)
          else Except.ok 7)
        (fun _ => Except.ok 0) [ChainId.ethereum, ChainId.base]).1]
      decide,
    (fetch_failure_isolation
      (fun c => if c = ChainId.ethereum then (Except.error () : Except Unit ℤ)
        else Except.ok 7)
      (fun _ => Except.ok 0) [ChainId.ethereum, ChainId.base]).2.2.2.2.1
      ChainId.ethereum (by decide) () rfl⟩

/-! ## Estimated success rate (C10) -/

/-- C10: when the fetched transfer list is empty (every walletless entity,
and every entity whose transfer fetch failed), the success rate fed into
metric synthesis is the estimate `clamp(round(85 + seeded(h+300)*14), 85, 99)`
— a deterministic function of the entity id alone — and it is always an
integer between 85 and 99. -/
theorem empty_transfers_success_rate (M : JsMath) (id : String) :
    successRateOf M [] (hashString id) = estSuccessRate M id ∧
    isInt (estSuccessRate M id) ∧
    85 ≤ estSuccessRate M id ∧ estSuccessRate M id ≤ 99 :=
  ⟨rfl, isInt_clamp _ ⟨85, by norm_num⟩ ⟨99, by norm_num⟩,
    le_clamp _ _ _, clamp_le _ (by norm_num)⟩

/-! ## Batch error isolation in `getAllAgents` (C8) -/

theorem batchedBuild_eq_filterMap (build : KnownAgent → Except Unit Agent) :
    ∀ (l : List KnownAgent),
      batchedBuild build l = l.filterMap fun k => (build k).toOption := by
  have key : ∀ (n : ℕ) (l : List KnownAgent), l.length ≤ n →
      batchedBuild build l = l.filterMap fun k => (build k).toOption := by
    intro n
    induction n with
    | zero =>
      intro l hl
      have : l = [] := List.eq_nil_of_length_eq_zero (Nat.le_antisymm hl (Nat.zero_le _))
      subst this
      rw [batchedBuild]
      rfl
    | succ m ih =>
      intro l hl
      cases l with
      | nil => rw [batchedBuild]; rfl
      | cons k rest =>
        rw [batchedBuild]
        have hdrop : ((k :: rest).drop 5).length ≤ m := by
          simp only [List.length_drop, List.length_cons]
          simp only [List.length_cons] at hl
          omega
        rw [ih _ hdrop]
        unfold settleBatch
        rw [List.filterMap_map]
        have hcomp : Except.toOption ∘ build = fun k => (build k).toOption := rfl
        rw [hcomp, ← List.filterMap_append, List.take_append_drop]
  intro l
  exact key l.length l le_rfl

/-- C8: the batch loop of `getAllAgents` never propagates a build error: an
entity whose build throws is dropped, every other entity's built agent is
kept (in particular every successful build appears in the returned,
sorted list), and the result is exactly the successes of the input list. -/
theorem getAllAgents_error_isolation (build : KnownAgent → Except Unit Agent)
    (allKnownAgents : List KnownAgent) :
    batchedBuild build allKnownAgents =
      (allKnownAgents.filterMap fun k => (build k).toOption) ∧
    (getAllAgentsPure build allKnownAgents).Perm
      (allKnownAgents.filterMap fun k => (build k).toOption) ∧
    (∀ k ∈ allKnownAgents, ∀ a, build k = Except.ok a →
      a ∈ getAllAgentsPure build allKnownAgents) ∧
    (getAllAgentsPure build allKnownAgents).length =
      (allKnownAgents.filterMap fun k => (build k).toOption).length := by
  have hb := batchedBuild_eq_filterMap build allKnownAgents
  have hperm : (getAllAgentsPure build allKnownAgents).Perm
      (allKnownAgents.filterMap fun k => (build k).toOption) := by
    unfold getAllAgentsPure sortByOverall
    rw [hb]
    exact List.mergeSort_perm _ _
  refine ⟨hb, hperm, ?_, hperm.length_eq⟩
  intro k hk a ha
  rw [hperm.mem_iff]
  exact List.mem_filterMap.mpr ⟨k, hk, by rw [ha]; rfl⟩

/-- A concrete built agent used by the C8 witness environment. -/
def buildStub (k : KnownAgent) : Agent :=
  { id := k.id, name := k.name, description := k.description, avatar := ""
    status := AgentStatus.active, chains := k.chains, skills := k.skills
    reputation := { overall := 50, reliability := 50, accuracy := 50
                    speed := 50, trustworthiness := 50, trend := Trend.stable
                    historyLast30Days := [] }
    stats := { totalTransactions := 0, successRate := 0
               totalValueProcessed := "", avgResponseTime := ""
               uptime := 0, activeChains := 0 }
    transactions := [], reviews := [], createdAt := "", lastActiveAt := ""
    walletAddress := "", website := none, twitter := none
    source := k.source }

/-- Witness for `getAllAgents_error_isolation`: a three-entity batch whose
middle entity's build throws is returned with exactly the other two. -/
theorem getAllAgents_error_isolation_witness :
    (agentBeta ∈ [agentBeta, agentGamma, agentAlpha] ∧
      (fun k => if k = agentGamma then (Except.error () : Except Unit Agent)
        else Except.ok (buildStub k)) agentBeta = Except.ok (buildStub agentBeta)) ∧
    (buildStub agentBeta ∈ getAllAgentsPure
      (fun k => if k = agentGamma then (Except.error () : Except Unit Agent)
        else Except.ok (buildStub k))
      [agentBeta, agentGamma, agentAlpha] ∧
    (getAllAgentsPure
      (fun k => if k = agentGamma then (Except.error () : Except Unit Agent)
        else Except.ok (buildStub k))
      [agentBeta, agentGamma, agentAlpha]).length = 2) := by
  constructor
  · exact ⟨by decide, rfl⟩
  constructor
  · exact (getAllAgents_error_isolation
      (fun k => if k = agentGamma then (Except.error () : Except Unit Agent)
        else Except.ok (buildStub k))
      [agentBeta, agentGamma, agentAlpha]).2.2.1 agentBeta (by decide)
      (buildStub agentBeta) rfl
  · rw [(getAllAgents_error_isolation
      (fun k => if k = agentGamma then (Except.error () : Except Unit Agent)
        else Except.ok (buildStub k))
      [agentBeta, agentGamma, agentAlpha]).2.2.2]
    decide

/-! ## RPC calls: no timeout, no retry (C9) -/

/-- C9 (counterexample): the request `rpcCall` issues on the scoring path
carries NO timeout — its init holds only method, headers and body, with no
abort signal — so it does not carry the claimed 8-second (8000 ms) timeout;
`ankrAdvancedCall` builds the identical init shape. -/
theorem rpc_no_timeout_counterexample :
    (rpcCall (fun _ => none) "https://rpc.ankr.com/eth" "eth_getBalance"
      "[address,latest]").1 =
      [rpcRequest "https://rpc.ankr.com/eth" "eth_getBalance" "[address,latest]"] ∧
    (rpcRequest "https://rpc.ankr.com/eth" "eth_getBalance"
      "[address,latest]").signalTimeoutMs = none ∧
    ¬ (rpcRequest "https://rpc.ankr.com/eth" "eth_getBalance"
      "[address,latest]").signalTimeoutMs = some 8000 ∧
    (ankrAdvancedCall (fun _ => none) "ankr_getTokenTransfers" "params").1 =
      [rpcRequest ANKR_ADVANCED_API "ankr_getTokenTransfers" "params"] ∧
    ¬ (rpcRequest ANKR_ADVANCED_API "ankr_getTokenTransfers"
      "params").signalTimeoutMs = some 8000 :=
  ⟨rfl, rfl, by simp [rpcRequest], rfl, by simp [rpcRequest]⟩

/-- C9 (amended): every network call in the scoring path issues exactly one
fetch — success or failure, it is never retried — and the request it issues
carries no timeout at all (the 8-second figure appears only in UI copy, not
in the RPC client). -/
theorem rpc_single_attempt_no_timeout (env : FetchInit → Option FetchResponse)
    (endpoint method params : String) :
    (rpcCall env endpoint method params).1 =
      [rpcRequest endpoint method params] ∧
    (∀ r ∈ (rpcCall env endpoint method params).1, r.signalTimeoutMs = none) ∧
    (ankrAdvancedCall env method params).1 =
      [rpcRequest ANKR_ADVANCED_API method params] ∧
    (∀ r ∈ (ankrAdvancedCall env method params).1,
      r.signalTimeoutMs = none) := by
  have htrace : (rpcCall env endpoint method params).1 =
      [rpcRequest endpoint method params] := by
    cases h : env (rpcRequest endpoint method params) with
    | none => simp [rpcCall, h]
    | some res =>
      simp only [rpcCall, h]
      split
      · rfl
      · split <;> rfl
  have htrace' : (ankrAdvancedCall env method params).1 =
      [rpcRequest ANKR_ADVANCED_API method params] := by
    cases h : env (rpcRequest ANKR_ADVANCED_API method params) with
    | none => simp [ankrAdvancedCall, h]
    | some res =>
      simp only [ankrAdvancedCall, h]
      split
      · rfl
      · split <;> rfl
  refine ⟨htrace, ?_, htrace', ?_⟩
  · intro r hr
    rw [htrace] at hr
    rw [List.mem_singleton.mp hr]
    rfl
  · intro r hr
    rw [htrace'] at hr
    rw [List.mem_singleton.mp hr]
    rfl

set_option maxRecDepth 100000 in
/-- Witness for `computeReputation_bounds` at concrete inputs: `20` is a
member of the generated history, and every bound holds for it and for the
concrete score fields. -/
theorem computeReputation_bounds_witness :
    ((20 : ℚ) ∈ (computeReputation jsMathZero 0 [] [] agentAlpha []
      metricsZero).historyLast30Days) ∧
    (isInt (20 : ℚ) ∧ (20 : ℚ) ≤ 20 ∧ (20 : ℚ) ≤ 99) ∧
    (25 : ℚ) ≤ (computeReputation jsMathZero 0 [] [] agentAlpha []
      metricsZero).reliability ∧
    (computeReputation jsMathZero 0 [] [] agentAlpha []
      metricsZero).overall ≤ 99 ∧
    (computeReputation jsMathZero 0 [] [] agentAlpha []
      metricsZero).historyLast30Days.length = 30 :=
  ⟨by decide,
    (computeReputation_bounds jsMathZero 0 [] [] agentAlpha []
      metricsZero).2.2.2.2.2.2 20 (by decide),
    (computeReputation_bounds jsMathZero 0 [] [] agentAlpha []
      metricsZero).2.1.2.1,
    (computeReputation_bounds jsMathZero 0 [] [] agentAlpha []
      metricsZero).1.2.2,
    (computeReputation_bounds jsMathZero 0 [] [] agentAlpha []
      metricsZero).2.2.2.2.2.1⟩

/-- Witness for `rpc_single_attempt_no_timeout` at a concrete call: the one
request issued is in the trace and carries no timeout. -/
theorem rpc_single_attempt_no_timeout_witness :
    rpcRequest "https://rpc.ankr.com/eth" "eth_getBalance" "[a,latest]" ∈
      (rpcCall (fun _ => none) "https://rpc.ankr.com/eth" "eth_getBalance"
        "[a,latest]").1 ∧
    (rpcRequest "https://rpc.ankr.com/eth" "eth_getBalance"
      "[a,latest]").signalTimeoutMs = none := by
  have h := rpc_single_attempt_no_timeout (fun _ => none)
    "https://rpc.ankr.com/eth" "eth_getBalance" "[a,latest]"
  refine ⟨?_, ?_⟩
  · rw [h.1]
    exact List.mem_singleton_self _
  · exact h.2.1 _ (by rw [h.1]; exact List.mem_singleton_self _)

end AgentRep
